import Mathlib

/-!
Verification development for the `geo-types-3d` crate's conversion layer:
the GeoJSON export converter (`src/conversion/geojson/from_geo_types.rs`),
the GeoJSON import converter (`src/conversion/geojson/to_geo_types.rs`) and
the WKT literal decoder (`src/wkt_macro.rs`), over a shallow embedding of the
crate's geometry entities.

Scalars: the converters are exercised at `T = f64`; finite float values and
their lossless transport (`T::from(f64)` and `to_f64` are the identity at
`f64`) are modelled by exact rationals.  The spec declares values outside the
finite float range undefined behaviour for this layer, so no rounding is
modelled.

Partiality: Rust panics (out-of-bounds indexing, `unwrap` of an `Err`, the
`panic!` catch-all in the export dispatch) are modelled by an explicit
`Fault.panic` outcome, and recoverable `geojson::Error` values by
`Fault.err`; every fallible function returns `Except Fault _`.
-/

namespace GeoTypes3D

/-- Coordinate scalar: the `T = f64` instantiation of the crate's generic
scalar, with finite float values represented exactly as rationals. -/
abbrev Scalar := ℚ

/-- From `src/geometry/coord_z.rs`: `pub struct CoordZ<T> { x: T, y: T, z: T }`. -/
structure CoordZ where
  x : Scalar
  y : Scalar
  z : Scalar
  deriving DecidableEq, Repr

/-- From `src/geometry/point_z.rs`: `pub struct PointZ<T>(pub CoordZ<T>);`. -/
structure PointZ where
  coord : CoordZ
  deriving DecidableEq, Repr

/-- From `src/geometry/point_z.rs`: `PointZ::new(x, y, z)`. -/
def PointZ.new (x y z : Scalar) : PointZ := ⟨⟨x, y, z⟩⟩

/-- From `src/geometry/point_z.rs`: accessor `x()`. -/
def PointZ.x (p : PointZ) : Scalar := p.coord.x

/-- From `src/geometry/point_z.rs`: accessor `y()`. -/
def PointZ.y (p : PointZ) : Scalar := p.coord.y

/-- From `src/geometry/point_z.rs`: accessor `z()`. -/
def PointZ.z (p : PointZ) : Scalar := p.coord.z

/-- From `src/geometry/line_z.rs`: `pub struct LineZ<T> { start, end: CoordZ<T> }`
(the `end` field is named `stop` here because `end` is reserved in Lean). -/
structure LineZ where
  start : CoordZ
  stop : CoordZ
  deriving DecidableEq, Repr

/-- From `src/geometry/line_z.rs`: `start_point()`. -/
def LineZ.start_point (l : LineZ) : PointZ := ⟨l.start⟩

/-- From `src/geometry/line_z.rs`: `end_point()`. -/
def LineZ.end_point (l : LineZ) : PointZ := ⟨l.stop⟩

/-- Modelled from the spec: `src/geometry/line_string_z.rs` is not under
`src/`; the spec's LineString is an ordered sequence of Coordinates
(`pub struct LineStringZ<T>(pub Vec<CoordZ<T>>)` per its uses in
`to_geo_types.rs` and `wkt_macro.rs`). -/
structure LineStringZ where
  coords : List CoordZ
  deriving DecidableEq, Repr

/-- Modelled from the spec: `LineStringZ::new(coords)` wraps the vector
unchanged (the wkt test `line_string` observes exactly the written coords). -/
def LineStringZ.new (coords : List CoordZ) : LineStringZ := ⟨coords⟩

/-- Modelled from the spec: `LineStringZ::empty()`. -/
def LineStringZ.empty : LineStringZ := ⟨[]⟩

/-- Modelled from the spec: `points()` iterates the coordinates as `PointZ`
values (used by the export converter's `create_line_string_type`). -/
def LineStringZ.points (ls : LineStringZ) : List PointZ := ls.coords.map PointZ.mk

/-- Modelled from the spec: ring closure test, first coordinate equals last
(upstream geo-types `LineString::is_closed`; an empty line string counts as
closed). -/
def LineStringZ.is_closed (ls : LineStringZ) : Bool := ls.coords.head? = ls.coords.getLast?

/-- Modelled from the spec: `LineString::close` pushes the first coordinate
when the ring is not closed.  The in-crate wkt test `test::polygon` pins this
behaviour ("Note: an extra coord is added to close the linestring"). -/
def LineStringZ.close (ls : LineStringZ) : LineStringZ :=
  match ls.coords with
  | [] => ⟨[]⟩
  | c :: cs => if (c :: cs).getLast? = some c then ⟨c :: cs⟩ else ⟨c :: cs ++ [c]⟩

/-- Modelled from the spec: `src/geometry/polygon.rs` is not under `src/`;
`PolygonZ { exterior: LineStringZ, interiors: Vec<LineStringZ> }` per §3 of
the spec and its uses in the converters. -/
structure PolygonZ where
  exterior : LineStringZ
  interiors : List LineStringZ
  deriving DecidableEq, Repr

/-- Modelled from the spec: `PolygonZ::new(exterior, interiors)` closes the
exterior and every interior ring, as upstream geo-types does and as the
in-crate wkt test `test::polygon` asserts (exterior of written length 2
decodes with 3 coordinates). -/
def PolygonZ.new (exterior : LineStringZ) (interiors : List LineStringZ) : PolygonZ :=
  ⟨exterior.close, interiors.map LineStringZ.close⟩

/-- Modelled from the spec: `PolygonZ::empty()`, an empty exterior and no
interiors (pinned by the wkt test `empty_polygon`). -/
def PolygonZ.empty : PolygonZ := ⟨⟨[]⟩, []⟩

/-- From `src/geometry/multi_point_z.rs`: `pub struct MultiPointZ<T>(pub Vec<PointZ<T>>);`. -/
structure MultiPointZ where
  points : List PointZ
  deriving DecidableEq, Repr

/-- From `src/geometry/multi_point_z.rs`: `MultiPointZ::empty()`. -/
def MultiPointZ.empty : MultiPointZ := ⟨[]⟩

/-- Modelled from the spec: `src/geometry/multi_line_string_z.rs` is not
under `src/`; an ordered possibly-empty sequence of LineStrings. -/
structure MultiLineStringZ where
  lineStrings : List LineStringZ
  deriving DecidableEq, Repr

/-- Modelled from the spec: `MultiLineStringZ::empty()`. -/
def MultiLineStringZ.empty : MultiLineStringZ := ⟨[]⟩

/-- Modelled from the spec: `src/geometry/multi_polygon_z.rs` is not under
`src/`; an ordered possibly-empty sequence of Polygons. -/
structure MultiPolygonZ where
  polygons : List PolygonZ
  deriving DecidableEq, Repr

/-- Modelled from the spec: `MultiPolygonZ::empty()`. -/
def MultiPolygonZ.empty : MultiPolygonZ := ⟨[]⟩

/-- Modelled from the spec: the legacy two-axis coordinate of the external
`geo_types` crate (kept in the `Geometry` sum for backward interoperability). -/
structure Coord2 where
  x : Scalar
  y : Scalar
  deriving DecidableEq, Repr

/-- Modelled from the spec: legacy two-axis `geo_types::Point`. -/
structure Point2 where
  coord : Coord2
  deriving DecidableEq, Repr

/-- Modelled from the spec: legacy two-axis `geo_types::Line`. -/
structure Line2 where
  start : Coord2
  stop : Coord2
  deriving DecidableEq, Repr

/-- Modelled from the spec: legacy two-axis `geo_types::LineString`. -/
structure LineString2 where
  coords : List Coord2
  deriving DecidableEq, Repr

/-- Modelled from the spec: legacy two-axis `geo_types::Polygon`. -/
structure Polygon2 where
  exterior : LineString2
  interiors : List LineString2
  deriving DecidableEq, Repr

/-- Modelled from the spec: legacy two-axis `geo_types::MultiPoint`. -/
structure MultiPoint2 where
  points : List Point2
  deriving DecidableEq, Repr

/-- Modelled from the spec: legacy two-axis `geo_types::MultiLineString`. -/
structure MultiLineString2 where
  lineStrings : List LineString2
  deriving DecidableEq, Repr

/-- Modelled from the spec: legacy two-axis `geo_types::MultiPolygon`. -/
structure MultiPolygon2 where
  polygons : List Polygon2
  deriving DecidableEq, Repr

/-- Modelled from the spec: the axis-aligned box variant (`geo_types::Rect`). -/
structure Rect2 where
  lo : Coord2
  hi : Coord2
  deriving DecidableEq, Repr

/-- From `src/geometry/mod.rs`: the closed `Geometry<T>` variant set, sixteen
variants — each current three-axis entity, its legacy two-axis counterpart,
the recursive collection and the box.  `GeometryCollection<T>` is a newtype
over `Vec<Geometry<T>>`; its member list is carried directly by the
`GeometryCollection` constructor. -/
inductive Geometry where
  | Point (p : Point2)
  | PointZ (p : PointZ)
  | Line (l : Line2)
  | LineZ (l : LineZ)
  | LineString (ls : LineString2)
  | LineStringZ (ls : LineStringZ)
  | Polygon (p : Polygon2)
  | PolygonZ (p : PolygonZ)
  | MultiPoint (m : MultiPoint2)
  | MultiPointZ (m : MultiPointZ)
  | MultiLineString (m : MultiLineString2)
  | MultiLineStringZ (m : MultiLineStringZ)
  | MultiPolygon (m : MultiPolygon2)
  | MultiPolygonZ (m : MultiPolygonZ)
  | GeometryCollection (gs : List Geometry)
  | Rect (r : Rect2)
  deriving Repr

/-- Modelled from the spec: `src/geometry/geometry_collection.rs` is not
under `src/`; `GeometryCollection<T>(pub Vec<Geometry<T>>)` is represented by
its member list. -/
abbrev GeometryCollection := List Geometry

/-- Modelled from the spec: a GeoJSON position, a 2- or 3-element numeric
array (the external `geojson` crate's `PointType`). -/
abbrev PointType := List Scalar

/-- Modelled from the spec: the external `geojson` crate's `LineStringType`,
an array of positions. -/
abbrev LineStringType := List PointType

/-- Modelled from the spec: the external `geojson` crate's `PolygonType`, an
array of rings. -/
abbrev PolygonType := List LineStringType

/-- Modelled from the spec: the external `geojson` crate's `Value` sum type
(§6 of the spec).  GeometryCollection members are `geojson::Geometry`
wrappers of which the converters only ever read the `value` field, so members
are represented by their values. -/
inductive GJValue where
  | point (p : PointType)
  | multiPoint (ps : List PointType)
  | lineString (ps : LineStringType)
  | multiLineString (ls : List LineStringType)
  | polygon (rs : PolygonType)
  | multiPolygon (mps : List PolygonType)
  | geometryCollection (gs : List GJValue)
  deriving Repr

/-- Modelled from the spec: `geojson::Value::type_name`, the value's kind
tag name. -/
def GJValue.type_name : GJValue → String
  | .point _ => "Point"
  | .multiPoint _ => "MultiPoint"
  | .lineString _ => "LineString"
  | .multiLineString _ => "MultiLineString"
  | .polygon _ => "Polygon"
  | .multiPolygon _ => "MultiPolygon"
  | .geometryCollection _ => "GeometryCollection"

/-- Modelled from the spec: the constructors of the external
`geojson::Error` type used by the import converter (§7 of the spec). -/
inductive GJError where
  | invalidGeometryConversion (expected_type found_type : String)
  | featureHasNoGeometry
  deriving DecidableEq, Repr

/-- A failure outcome of running translated Rust code: either a panic
(out-of-bounds indexing, `unwrap` of an `Err`, an explicit `panic!`) or a
returned `geojson::Error` value. -/
inductive Fault where
  | panic
  | err (e : GJError)
  deriving DecidableEq, Repr

/-- Result of a fallible (or panicking) computation. -/
abbrev FResult (α : Type) := Except Fault α

/-- Rust slice indexing `v[i]`: the value, or a panic when out of bounds. -/
def idxF {α : Type} (l : List α) (i : Nat) : FResult α :=
  match l.get? i with
  | some a => .ok a
  | none => .error .panic

/-- Rust `Result::unwrap` inside a computation: an `Err` (and a propagating
panic) becomes a panic. -/
def unwrapE {α : Type} : FResult α → FResult α
  | .ok a => .ok a
  | .error _ => .error .panic

/-- From `to_geo_types.rs` (`create_geo_coordinate`): reads indices 0, 1, 2
of the position unconditionally; `T::from` is the identity at `f64`. -/
def create_geo_coordinate (point_type : PointType) : FResult CoordZ := do
  let x ← idxF point_type 0
  let y ← idxF point_type 1
  let z ← idxF point_type 2
  pure ⟨x, y, z⟩

/-- From `to_geo_types.rs` (`create_geo_point`): reads indices 0, 1, 2 of the
position unconditionally. -/
def create_geo_point (point_type : PointType) : FResult PointZ := do
  let x ← idxF point_type 0
  let y ← idxF point_type 1
  let z ← idxF point_type 2
  pure (PointZ.new x y z)

/-- From `to_geo_types.rs` (`create_geo_line_string`). -/
def create_geo_line_string (line_type : LineStringType) : FResult LineStringZ :=
  (line_type.mapM create_geo_coordinate).map LineStringZ.mk

/-- From `to_geo_types.rs` (`create_geo_multi_line_string`). -/
def create_geo_multi_line_string (multi_line_type : List LineStringType) :
    FResult MultiLineStringZ :=
  (multi_line_type.mapM create_geo_line_string).map MultiLineStringZ.mk

/-- From `to_geo_types.rs` (`create_geo_polygon`): first ring (or an empty
line string) becomes the exterior; with fewer than 2 rings the interiors are
empty, otherwise the remaining rings become the interiors in order. -/
def create_geo_polygon (polygon_type : PolygonType) : FResult PolygonZ := do
  let exterior ←
    match polygon_type.head? with
    | some e => create_geo_line_string e
    | none => create_geo_line_string []
  let interiors ←
    if polygon_type.length < 2 then pure []
    else (polygon_type.drop 1).mapM create_geo_line_string
  pure (PolygonZ.new exterior interiors)

/-- From `to_geo_types.rs` (`create_geo_multi_polygon`). -/
def create_geo_multi_polygon (multi_polygon_type : List PolygonType) :
    FResult MultiPolygonZ :=
  (multi_polygon_type.mapM create_geo_polygon).map MultiPolygonZ.mk

/-- From `to_geo_types.rs` (`mismatch_geom_err`). -/
def mismatch_geom_err (expected_type : String) (found : GJValue) : GJError :=
  .invalidGeometryConversion expected_type found.type_name

/-- From `to_geo_types.rs`: `TryFrom<&Value> for PointZ<T>`. -/
def PointZ.try_from_value : GJValue → FResult PointZ
  | .point point_type => create_geo_point point_type
  | other => .error (.err (mismatch_geom_err "Point" other))

/-- From `to_geo_types.rs`: `TryFrom<&Value> for MultiPointZ<T>`. -/
def MultiPointZ.try_from_value : GJValue → FResult MultiPointZ
  | .multiPoint multi_point_type =>
      (multi_point_type.mapM create_geo_point).map MultiPointZ.mk
  | other => .error (.err (mismatch_geom_err "MultiPoint" other))

/-- From `to_geo_types.rs`: `TryFrom<&Value> for LineStringZ<T>`. -/
def LineStringZ.try_from_value : GJValue → FResult LineStringZ
  | .lineString multi_point_type => create_geo_line_string multi_point_type
  | other => .error (.err (mismatch_geom_err "LineString" other))

/-- From `to_geo_types.rs`: `TryFrom<&Value> for MultiLineStringZ<T>`; note
the expected-type string passed by the source is `"MultiLineStringZ"`. -/
def MultiLineStringZ.try_from_value : GJValue → FResult MultiLineStringZ
  | .multiLineString multi_line_string_type =>
      create_geo_multi_line_string multi_line_string_type
  | other => .error (.err (mismatch_geom_err "MultiLineStringZ" other))

/-- From `to_geo_types.rs`: `TryFrom<&Value> for PolygonZ<T>`. -/
def PolygonZ.try_from_value : GJValue → FResult PolygonZ
  | .polygon polygon_type => create_geo_polygon polygon_type
  | other => .error (.err (mismatch_geom_err "Polygon" other))

/-- From `to_geo_types.rs`: `TryFrom<&Value> for MultiPolygonZ<T>`. -/
def MultiPolygonZ.try_from_value : GJValue → FResult MultiPolygonZ
  | .multiPolygon multi_polygon_type => create_geo_multi_polygon multi_polygon_type
  | other => .error (.err (mismatch_geom_err "MultiPolygon" other))

mutual

/-- From `to_geo_types.rs`: `TryFrom<&Value> for Geometry<T>`.  Every
non-collection arm wraps the helper's result in `Ok`; the collection arm
recursively converts each member and collects with `?` (fail-fast). -/
def Geometry.try_from_value : GJValue → FResult Geometry
  | .point point_type => (create_geo_point point_type).map Geometry.PointZ
  | .multiPoint multi_point_type =>
      ((multi_point_type.mapM create_geo_point).map
        (fun ps => Geometry.MultiPointZ ⟨ps⟩))
  | .lineString line_string_type =>
      (create_geo_line_string line_string_type).map Geometry.LineStringZ
  | .multiLineString multi_line_string_type =>
      (create_geo_multi_line_string multi_line_string_type).map Geometry.MultiLineStringZ
  | .polygon polygon_type => (create_geo_polygon polygon_type).map Geometry.PolygonZ
  | .multiPolygon multi_polygon_type =>
      (create_geo_multi_polygon multi_polygon_type).map Geometry.MultiPolygonZ
  | .geometryCollection gc_type =>
      (Geometry.try_list gc_type).map Geometry.GeometryCollection

/-- The fail-fast collection `collect::<Result<Vec<Geometry<T>>>>` over the
members of an interchange GeometryCollection. -/
def Geometry.try_list : List GJValue → FResult (List Geometry)
  | [] => .ok []
  | v :: vs => do
      let g ← Geometry.try_from_value v
      let gs ← Geometry.try_list vs
      pure (g :: gs)

end

/-- From `to_geo_types.rs`, `TryFrom<&Value> for GeometryCollection<T>`: each
member is converted with `.try_into().unwrap()` — an `unwrap`, not `?` — so a
member failure surfaces as a panic while iterating. -/
def unwrap_geom_list : List GJValue → FResult (List Geometry)
  | [] => .ok []
  | v :: vs => do
      let g ← unwrapE (Geometry.try_from_value v)
      let gs ← unwrap_geom_list vs
      pure (g :: gs)

/-- From `to_geo_types.rs`: `TryFrom<&Value> for GeometryCollection<T>`. -/
def GeometryCollection.try_from_value : GJValue → FResult GeometryCollection
  | .geometryCollection geometries => unwrap_geom_list geometries
  | other => .error (.err (mismatch_geom_err "GeometryCollection" other))

/-- Modelled from the spec: the external `geojson::Feature`; the import
converter only reads its optional `geometry` field, so a feature is
represented by that field. -/
abbrev Feature := Option GJValue

/-- Modelled from the spec: the external `geojson::GeoJson` document sum:
a bare geometry, a single feature, or a feature collection. -/
inductive GeoJson where
  | geometry (g : GJValue)
  | feature (f : Feature)
  | featureCollection (fs : List Feature)
  deriving Repr

/-- From `to_geo_types.rs` (macro `impl_try_from_geom_value`):
`TryFrom<Feature> for Geometry<T>` — no geometry is the
`FeatureHasNoGeometry` error. -/
def Feature.try_into_geometry : Feature → FResult Geometry
  | none => .error (.err .featureHasNoGeometry)
  | some geom => Geometry.try_from_value geom

/-- From `to_geo_types.rs`: `TryFrom<&GeoJson> for GeometryCollection<T>`.
A feature collection keeps only the features that carry a geometry
(`filter_map`) and converts them fail-fast; a lone feature without geometry
becomes an empty collection. -/
def GeometryCollection.try_from_geojson : GeoJson → FResult GeometryCollection
  | .featureCollection features => Geometry.try_list (features.filterMap id)
  | .feature (some geometry) => (Geometry.try_from_value geometry).map (fun g => [g])
  | .feature none => .ok []
  | .geometry geometry => (Geometry.try_from_value geometry).map (fun g => [g])

/-- From `from_geo_types.rs` (`create_point_type`): converts only `x` and `y`
to `f64` and returns the two-element position `vec![x, y]` — the `z`
component is not emitted. -/
def create_point_type (point : PointZ) : PointType := [point.x, point.y]

/-- From `from_geo_types.rs` (`create_line_string_type`). -/
def create_line_string_type (line_string : LineStringZ) : LineStringType :=
  line_string.points.map (fun point => create_point_type point)

/-- From `from_geo_types.rs` (`create_from_line_type`). -/
def create_from_line_type (line_string : LineZ) : LineStringType :=
  [create_point_type line_string.start_point, create_point_type line_string.end_point]

/-- From `from_geo_types.rs` (`create_multi_line_string_type`). -/
def create_multi_line_string_type (multi_line_string : MultiLineStringZ) :
    List LineStringType :=
  multi_line_string.lineStrings.map create_line_string_type

/-- From `from_geo_types.rs` (`create_polygon_type`): the exterior ring first,
then the interiors in order. -/
def create_polygon_type (polygon : PolygonZ) : PolygonType :=
  (polygon.exterior.points.map (fun point => create_point_type point))
    :: polygon.interiors.map create_line_string_type

/-- From `from_geo_types.rs` (`create_multi_polygon_type`). -/
def create_multi_polygon_type (multi_polygon : MultiPolygonZ) : List PolygonType :=
  multi_polygon.polygons.map create_polygon_type

/-- From `from_geo_types.rs`: `From<&PointZ<T>> for geojson::Value`. -/
def GJValue.from_pointZ (point : PointZ) : GJValue := .point (create_point_type point)

/-- From `from_geo_types.rs`: `From<&MultiPointZ<T>> for geojson::Value`. -/
def GJValue.from_multi_pointZ (multi_point : MultiPointZ) : GJValue :=
  .multiPoint (multi_point.points.map (fun point => create_point_type point))

/-- From `from_geo_types.rs`: `From<&LineStringZ<T>> for geojson::Value`. -/
def GJValue.from_line_stringZ (line_string : LineStringZ) : GJValue :=
  .lineString (create_line_string_type line_string)

/-- From `from_geo_types.rs`: `From<&LineZ<T>> for geojson::Value`. -/
def GJValue.from_lineZ (line : LineZ) : GJValue :=
  .lineString (create_from_line_type line)

/-- From `from_geo_types.rs`: `From<&MultiLineStringZ<T>> for geojson::Value`. -/
def GJValue.from_multi_line_stringZ (multi_line_string : MultiLineStringZ) : GJValue :=
  .multiLineString (create_multi_line_string_type multi_line_string)

/-- From `from_geo_types.rs`: `From<&PolygonZ<T>> for geojson::Value`. -/
def GJValue.from_polygonZ (polygon : PolygonZ) : GJValue :=
  .polygon (create_polygon_type polygon)

/-- From `from_geo_types.rs`: `From<&MultiPolygonZ<T>> for geojson::Value`. -/
def GJValue.from_multi_polygonZ (multi_polygon : MultiPolygonZ) : GJValue :=
  .multiPolygon (create_multi_polygon_type multi_polygon)

/-- Modelled from the spec: the external `geojson` crate's conversion of a
legacy two-axis `geo_types::Point` (used by the `Geometry::Point` export
arm); a two-element position. -/
def GJValue.from_point2 (p : Point2) : GJValue := .point [p.coord.x, p.coord.y]

/-- Modelled from the spec: the external conversion of a legacy
`geo_types::LineString`. -/
def GJValue.from_line_string2 (ls : LineString2) : GJValue :=
  .lineString (ls.coords.map (fun c => [c.x, c.y]))

/-- Modelled from the spec: the external conversion of a legacy
`geo_types::Line` (its two end points). -/
def GJValue.from_line2 (l : Line2) : GJValue :=
  .lineString [[l.start.x, l.start.y], [l.stop.x, l.stop.y]]

/-- Modelled from the spec: the external conversion of a legacy
`geo_types::Polygon` (exterior ring first, then interiors). -/
def GJValue.from_polygon2 (p : Polygon2) : GJValue :=
  .polygon ((p.exterior.coords.map (fun c => [c.x, c.y]))
    :: p.interiors.map (fun ls => ls.coords.map (fun c => [c.x, c.y])))

/-- Modelled from the spec: the external conversion of a legacy
`geo_types::MultiLineString`. -/
def GJValue.from_multi_line_string2 (m : MultiLineString2) : GJValue :=
  .multiLineString (m.lineStrings.map (fun ls => ls.coords.map (fun c => [c.x, c.y])))

/-- Modelled from the spec: the external conversion of a legacy
`geo_types::MultiPolygon`. -/
def GJValue.from_multi_polygon2 (m : MultiPolygon2) : GJValue :=
  .multiPolygon (m.polygons.map (fun p =>
    (p.exterior.coords.map (fun c => [c.x, c.y]))
      :: p.interiors.map (fun ls => ls.coords.map (fun c => [c.x, c.y]))))

/-- Modelled from the spec: the external conversion of a `geo_types::Rect` to
a single closed five-position ring. -/
def GJValue.from_rect2 (r : Rect2) : GJValue :=
  .polygon [[[r.hi.x, r.lo.y], [r.hi.x, r.hi.y], [r.lo.x, r.hi.y],
    [r.lo.x, r.lo.y], [r.hi.x, r.lo.y]]]

mutual

/-- From `from_geo_types.rs`: `From<&Geometry<T>> for geojson::Value`.  The
match covers the arms written in the source — `Point`, `MultiPointZ`,
`LineString`, `Line`, `Rect`, `GeometryCollection`, `MultiLineString`,
`Polygon`, `MultiPolygon` — and every remaining variant (`PointZ`, `LineZ`,
`LineStringZ`, `PolygonZ`, `MultiLineStringZ`, `MultiPolygonZ`,
`MultiPoint`) falls into the source's catch-all
`_ => panic!("Not valid geojson ...")`. -/
def Geometry.to_gj_value : Geometry → FResult GJValue
  | .Point point => .ok (GJValue.from_point2 point)
  | .MultiPointZ multi_point => .ok (GJValue.from_multi_pointZ multi_point)
  | .LineString line_string => .ok (GJValue.from_line_string2 line_string)
  | .Line line => .ok (GJValue.from_line2 line)
  | .Rect rect => .ok (GJValue.from_rect2 rect)
  | .GeometryCollection gc => (Geometry.to_gj_list gc).map GJValue.geometryCollection
  | .MultiLineString multi_line_string => .ok (GJValue.from_multi_line_string2 multi_line_string)
  | .Polygon polygon => .ok (GJValue.from_polygon2 polygon)
  | .MultiPolygon multi_polygon => .ok (GJValue.from_multi_polygon2 multi_polygon)
  | _ => .error .panic

/-- The member-wise export used by `From<&GeometryCollection<T>> for
geojson::Value`: each member goes through the `Geometry` dispatch above, so a
member hitting the catch-all panics the whole export. -/
def Geometry.to_gj_list : List Geometry → FResult (List GJValue)
  | [] => .ok []
  | g :: gs => do
      let v ← Geometry.to_gj_value g
      let vs ← Geometry.to_gj_list gs
      pure (v :: vs)

end

/-- From `from_geo_types.rs`: `From<&GeometryCollection<T>> for
geojson::Value`. -/
def GJValue.from_geometry_collection (geometry_collection : GeometryCollection) :
    FResult GJValue :=
  (Geometry.to_gj_list geometry_collection).map GJValue.geometryCollection

/-- A `LINESTRING Z` body as written in a wkt literal: the token `EMPTY` or a
parenthesized comma-separated list of `x y z` coordinate triples (the token
tree consumed by one `LINESTRING Z` rule of `wkt_internal`). -/
inductive WktLsBody where
  | empty
  | coords (cs : List (Scalar × Scalar × Scalar))
  deriving DecidableEq, Repr

/-- A `POLYGON Z` body as written in a wkt literal: `EMPTY`, the explicitly
rejected `()`, or a parenthesized non-empty list of ring bodies. -/
inductive WktPolyBody where
  | empty
  | parenEmpty
  | rings (exterior_tt : WktLsBody) (interiors_tt : List WktLsBody)
  deriving DecidableEq, Repr

/-- The well-formed pattern space of the `wkt_internal!` macro
(`src/wkt_macro.rs`), one constructor per accepting or explicitly rejecting
rule.  Non-matching token streams (including a non-empty
`GEOMETRYCOLLECTION (...)` list, whose two-token-tree member pattern can
never match a `<KIND> Z <body>` member) are rejected by the macro and are not
part of this space. -/
inductive Wkt where
  | pointEmpty
  | point (x y z : Scalar)
  | lineString (body : WktLsBody)
  | polygon (body : WktPolyBody)
  | multiPointEmpty
  | multiPointParenEmpty
  | multiPoint (pts : List (Scalar × Scalar × Scalar))
  | multiLineStringEmpty
  | multiLineString (bodies : List WktLsBody)
  | multiPolygonEmpty
  | multiPolygonParenEmpty
  | multiPolygon (bodies : List WktPolyBody)
  | geometryCollectionEmpty
  | geometryCollectionParenEmpty
  deriving DecidableEq, Repr

/-- A decode rejection: in the source a `compile_error!` raised while the
literal is resolved, before the value exists. -/
structure DecodeError where
  msg : String
  deriving DecidableEq, Repr

/-- From `src/wkt_macro.rs`: a `LINESTRING Z` body decodes to the line string
with exactly the written coordinates (`line_string_z![...]` =
`LineStringZ::new(vec![...])`). -/
def decode_line_string_body : WktLsBody → LineStringZ
  | .empty => LineStringZ.empty
  | .coords cs => LineStringZ.new (cs.map (fun t => ⟨t.1, t.2.1, t.2.2⟩))

/-- From `src/wkt_macro.rs`: a `POLYGON Z` body decodes through
`PolygonZ::empty` / `PolygonZ::new(exterior, interiors)`, with `()`
rejected. -/
def decode_polygon_body : WktPolyBody → Except DecodeError PolygonZ
  | .empty => .ok PolygonZ.empty
  | .parenEmpty => .error ⟨"use `EMPTY` instead of () for an empty collection"⟩
  | .rings exterior_tt interiors_tt =>
      .ok (PolygonZ.new (decode_line_string_body exterior_tt)
        (interiors_tt.map decode_line_string_body))

/-- From `src/wkt_macro.rs` (`wkt_internal!`): the meaning of each rule of
the literal grammar, the decoded entity wrapped in its `Geometry` variant. -/
def decode_wkt : Wkt → Except DecodeError Geometry
  | .pointEmpty => .error ⟨"EMPTY points are not supported in geo-types"⟩
  | .point x y z => .ok (.PointZ (PointZ.new x y z))
  | .lineString body => .ok (.LineStringZ (decode_line_string_body body))
  | .polygon body => (decode_polygon_body body).map Geometry.PolygonZ
  | .multiPointEmpty => .ok (.MultiPointZ MultiPointZ.empty)
  | .multiPointParenEmpty => .error ⟨"use `EMPTY` instead of () for an empty collection"⟩
  | .multiPoint pts =>
      .ok (.MultiPointZ ⟨pts.map (fun t => PointZ.new t.1 t.2.1 t.2.2)⟩)
  | .multiLineStringEmpty => .ok (.MultiLineStringZ MultiLineStringZ.empty)
  | .multiLineString bodies =>
      .ok (.MultiLineStringZ ⟨bodies.map decode_line_string_body⟩)
  | .multiPolygonEmpty => .ok (.MultiPolygonZ MultiPolygonZ.empty)
  | .multiPolygonParenEmpty => .error ⟨"use `EMPTY` instead of () for an empty collection"⟩
  | .multiPolygon bodies =>
      (bodies.mapM decode_polygon_body).map (fun ps => .MultiPolygonZ ⟨ps⟩)
  | .geometryCollectionEmpty => .ok (.GeometryCollection [])
  | .geometryCollectionParenEmpty =>
      .error ⟨"use `EMPTY` instead of () for an empty collection"⟩

/-- Closing a ring that is already closed leaves it unchanged. -/
theorem LineStringZ.close_of_is_closed (ls : LineStringZ) (h : ls.is_closed = true) :
    ls.close = ls := by
  obtain ⟨coords⟩ := ls
  cases coords with
  | nil => rfl
  | cons c cs =>
      have h' : (c :: cs).getLast? = some c := by
        have := of_decide_eq_true h
        simpa [LineStringZ.is_closed] using this.symm
      simp [LineStringZ.close, h']

/-- Fail-fast of the `collect::<Result<_>>` member import: when every member
of `pre` imports successfully and `g` faults, the collection of
`pre ++ g :: rest` is exactly `g`'s fault. -/
theorem Geometry.try_list_first_fault {pre rest : List GJValue} {g : GJValue} {f : Fault}
    (hpre : ∀ v ∈ pre, ∃ x, Geometry.try_from_value v = .ok x)
    (hg : Geometry.try_from_value g = .error f) :
    Geometry.try_list (pre ++ g :: rest) = .error f := by
  induction pre with
  | nil =>
      simp only [List.nil_append, Geometry.try_list, hg]
      rfl
  | cons v pre ih =>
      obtain ⟨x, hx⟩ := hpre v (List.mem_cons_self v pre)
      have hrest := ih (fun w hw => hpre w (List.mem_cons_of_mem v hw))
      simp only [List.cons_append, Geometry.try_list, hx, List.append_eq, hrest]
      rfl

/-- The `unwrap`-based member conversion of the concrete GeometryCollection
importing path: the first member fault surfaces as a panic. -/
theorem unwrap_geom_list_first_fault {pre rest : List GJValue} {g : GJValue} {f : Fault}
    (hpre : ∀ v ∈ pre, ∃ x, Geometry.try_from_value v = .ok x)
    (hg : Geometry.try_from_value g = .error f) :
    unwrap_geom_list (pre ++ g :: rest) = .error .panic := by
  induction pre with
  | nil =>
      simp only [List.nil_append, unwrap_geom_list, hg]
      rfl
  | cons v pre ih =>
      obtain ⟨x, hx⟩ := hpre v (List.mem_cons_self v pre)
      have hrest := ih (fun w hw => hpre w (List.mem_cons_of_mem v hw))
      simp only [List.cons_append, unwrap_geom_list, hx, List.append_eq, unwrapE, hrest]
      rfl

/-- Features without a geometry contribute nothing to the imported list. -/
theorem filterMap_id_filter_isSome (fs : List Feature) :
    (fs.filter (fun f => f.isSome)).filterMap id = fs.filterMap id := by
  induction fs with
  | nil => rfl
  | cons f fs ih => cases f <;> simp [ih]

/-- C1: the claim says the export converter turns a `PointZ` into a 3-element
position `[x, y, z]`.  The code's `create_point_type` emits only `[x, y]`:
at the crate's own test input `PointZ::new(100.0, 0.0, 0.0)` the exported
position is `[100.0, 0.0]`, of length 2 — the crate's tests
(`geo_point_conversion_test`, `test_from_geo_type_to_geojson`) assert a third
element, so the code contradicts its own tests. -/
theorem C1_point_export_drops_z :
    GJValue.from_pointZ (PointZ.new 100 0 0) = .point [100, 0]
    ∧ (create_point_type (PointZ.new 100 0 0)).length = 2 := ⟨rfl, rfl⟩

/-- C2: the claim says import after export is the identity on geometries
with closed rings that use only the current Z variants.  It is not: exporting
`Geometry::PointZ(1, 2, 3)` hits the export dispatch's `panic!` catch-all,
and even for the covered `MultiPointZ` variant the exported positions carry
only `[x, y]`, so re-importing panics reading index 2. -/
theorem C2_roundtrip_fails_on_z_variants :
    Geometry.to_gj_value (.PointZ (PointZ.new 1 2 3)) = .error .panic
    ∧ Geometry.to_gj_value (.MultiPointZ ⟨[PointZ.new 1 2 3]⟩) = .ok (.multiPoint [[1, 2]])
    ∧ Geometry.try_from_value (.multiPoint [[1, 2]]) = .error .panic := ⟨rfl, rfl, rfl⟩

/-- C3: the claim says the export converter is total and never reaches a
panic branch for any `Geometry` variant.  The `From<&Geometry>` match only
covers `Point`, `MultiPointZ`, `LineString`, `Line`, `Rect`,
`GeometryCollection`, `MultiLineString`, `Polygon` and `MultiPolygon`; the
remaining variants fall into `_ => panic!`, so exporting a
`MultiLineStringZ` — which the crate's own
`geo_geometry_collection_conversion_test` does, expecting success — panics,
directly and inside a collection. -/
theorem C3_export_reaches_panic :
    Geometry.to_gj_value (.MultiLineStringZ ⟨[]⟩) = .error .panic
    ∧ Geometry.to_gj_value (.GeometryCollection [.MultiLineStringZ ⟨[]⟩]) = .error .panic
    ∧ Geometry.to_gj_value (.PointZ (PointZ.new 100 0 0)) = .error .panic :=
  ⟨rfl, rfl, rfl⟩

/-- C4 counterexample: the claim says a failing member makes the
GeometryCollection import fail "by returning that member's error value (…no
panic occurs)".  At the concrete collection `[Point [1, 2]]` the member's
conversion faults (malformed position), yet both the `Geometry`-sum import and
the concrete `GeometryCollection` import panic instead of returning an error
value. -/
theorem C4_counterexample_member_panic :
    Geometry.try_from_value (.geometryCollection [.point [1, 2]]) = .error .panic
    ∧ GeometryCollection.try_from_value (.geometryCollection [.point [1, 2]]) = .error .panic
    ∧ Geometry.try_from_value (.point [1, 2]) = .error .panic := ⟨rfl, rfl, rfl⟩

/-- C4 (amended): importing an interchange GeometryCollection converts the
members in order and stops at the first member whose import faults, with no
partial collection: the `Geometry`-sum import returns exactly that member's
fault (its collect is fail-fast), while the concrete `GeometryCollection`
importer unwraps each member result and therefore fails by panic. -/
theorem C4_first_member_fault (pre rest : List GJValue) (g : GJValue) (f : Fault)
    (hpre : ∀ v ∈ pre, ∃ x, Geometry.try_from_value v = .ok x)
    (hg : Geometry.try_from_value g = .error f) :
    Geometry.try_from_value (.geometryCollection (pre ++ g :: rest)) = .error f
    ∧ GeometryCollection.try_from_value (.geometryCollection (pre ++ g :: rest))
      = .error .panic := by
  constructor
  · simp only [Geometry.try_from_value, Geometry.try_list_first_fault hpre hg]
    rfl
  · simp only [GeometryCollection.try_from_value, unwrap_geom_list_first_fault hpre hg]

/-- C4 witness: the fail-fast behaviour at a concrete collection whose only
member is a MultiPoint with one malformed (empty) position. -/
theorem C4_witness_concrete :
    Geometry.try_from_value (.geometryCollection [.multiPoint [[]]]) = .error .panic
    ∧ GeometryCollection.try_from_value (.geometryCollection [.multiPoint [[]]])
      = .error .panic := by
  have h := C4_first_member_fault [] [] (.multiPoint [[]]) .panic
    (by intro v hv; exact absurd hv (List.not_mem_nil v)) rfl
  simpa using h

/-- C5 (amended): importing an interchange value into a concrete geometry
type against a value tagged with a different kind fails with
`InvalidGeometryConversion` whose `found_type` is the value's kind name and
whose `expected_type` is the string the source passes — the kind's name for
every type except `MultiLineStringZ`, whose importer passes
`"MultiLineStringZ"` rather than `"MultiLineString"`. -/
theorem C5_kind_mismatch (v : GJValue) :
    (v.type_name ≠ "Point" → PointZ.try_from_value v
      = .error (.err (.invalidGeometryConversion "Point" v.type_name)))
    ∧ (v.type_name ≠ "MultiPoint" → MultiPointZ.try_from_value v
      = .error (.err (.invalidGeometryConversion "MultiPoint" v.type_name)))
    ∧ (v.type_name ≠ "LineString" → LineStringZ.try_from_value v
      = .error (.err (.invalidGeometryConversion "LineString" v.type_name)))
    ∧ (v.type_name ≠ "MultiLineString" → MultiLineStringZ.try_from_value v
      = .error (.err (.invalidGeometryConversion "MultiLineStringZ" v.type_name)))
    ∧ (v.type_name ≠ "Polygon" → PolygonZ.try_from_value v
      = .error (.err (.invalidGeometryConversion "Polygon" v.type_name)))
    ∧ (v.type_name ≠ "MultiPolygon" → MultiPolygonZ.try_from_value v
      = .error (.err (.invalidGeometryConversion "MultiPolygon" v.type_name)))
    ∧ (v.type_name ≠ "GeometryCollection" → GeometryCollection.try_from_value v
      = .error (.err (.invalidGeometryConversion "GeometryCollection" v.type_name))) := by
  refine ⟨?_, ?_, ?_, ?_, ?_, ?_, ?_⟩ <;> intro h <;> cases v <;>
    first
    | rfl
    | exact absurd rfl h

/-- C5 counterexample: the claim says the error's `expected_type` is the
requested kind's name for every concrete type; for MultiLineString the source
passes `"MultiLineStringZ"`, which is not the kind name
`"MultiLineString"`. -/
theorem C5_counterexample_mls_expected_string :
    MultiLineStringZ.try_from_value (.point [0, 0, 0])
      = .error (.err (.invalidGeometryConversion "MultiLineStringZ" "Point"))
    ∧ "MultiLineStringZ" ≠ "MultiLineString" := ⟨rfl, by decide⟩

/-- C5 witness: the claim's own scenario — importing a LineString value as a
Point fails naming expected `"Point"` and found `"LineString"`. -/
theorem C5_witness_point_vs_linestring :
    PointZ.try_from_value (.lineString [[100, 1], [101, 1]])
      = .error (.err (.invalidGeometryConversion "Point" "LineString")) :=
  (C5_kind_mismatch (.lineString [[100, 1], [101, 1]])).1 (by decide)

/-- C6 counterexample: the claim says a ring list of length 1 yields "that
ring" as the exterior.  For the unclosed single ring
`[[0,0,0], [1,1,1]]` the imported exterior is the ring with an extra closing
coordinate appended (`PolygonZ::new` closes its rings), not the written
ring. -/
theorem C6_counterexample_unclosed_ring :
    PolygonZ.try_from_value (.polygon [[[0, 0, 0], [1, 1, 1]]])
      = .ok ⟨⟨[⟨0, 0, 0⟩, ⟨1, 1, 1⟩, ⟨0, 0, 0⟩]⟩, []⟩
    ∧ ([⟨0, 0, 0⟩, ⟨1, 1, 1⟩, ⟨0, 0, 0⟩] : List CoordZ) ≠ [⟨0, 0, 0⟩, ⟨1, 1, 1⟩] :=
  ⟨rfl, by decide⟩

/-- C6 (amended): the ring-count rule of the Polygon import, with the ring
closure made explicit: zero rings yield an empty exterior and no interiors;
otherwise the first ring (closed by the Polygon constructor) is the exterior
and the remaining rings (each closed) are the interiors, in order. -/
theorem C6_polygon_ring_rule :
    create_geo_polygon ([] : PolygonType) = .ok ⟨⟨[]⟩, []⟩
    ∧ ∀ (r : LineStringType) (rest : PolygonType),
        create_geo_polygon (r :: rest) =
          (do
            let e ← create_geo_line_string r
            let is ← rest.mapM create_geo_line_string
            pure (⟨e.close, is.map LineStringZ.close⟩ : PolygonZ)) := by
  constructor
  · rfl
  · intro r rest
    cases rest with
    | nil =>
        cases hc : create_geo_line_string r <;>
          simp [create_geo_polygon, hc, PolygonZ.new, Except.bind, List.mapM] <;> rfl
    | cons r2 rs =>
        have hlen : ¬ (rs.length + 1 + 1 < 2) := by omega
        cases hc : create_geo_line_string r <;>
          simp [create_geo_polygon, hc, hlen, PolygonZ.new, Except.bind]

/-- C7: a feature-collection document imported as a GeometryCollection
converts each contained feature's geometry, silently discarding features
without geometry, while a lone feature without geometry imports as an empty
GeometryCollection rather than an error. -/
theorem C7_feature_handling :
    (∀ fs : List Feature,
      GeometryCollection.try_from_geojson (.featureCollection fs)
        = GeometryCollection.try_from_geojson
            (.featureCollection (fs.filter (fun f => f.isSome))))
    ∧ (∀ fs : List Feature,
      GeometryCollection.try_from_geojson (.featureCollection fs)
        = Geometry.try_list (fs.filterMap id))
    ∧ GeometryCollection.try_from_geojson (.feature none) = .ok [] := by
  refine ⟨?_, fun fs => rfl, rfl⟩
  intro fs
  simp [GeometryCollection.try_from_geojson, filterMap_id_filter_isSome]

/-- C8: the literal decoder accepts `EMPTY` for every collection-like kind —
`POLYGON Z EMPTY` decodes to the polygon with an empty exterior and no
interiors — and rejects `POINT Z EMPTY` with a decode failure, producing no
placeholder value. -/
theorem C8_empty_literals :
    decode_wkt .pointEmpty = .error ⟨"EMPTY points are not supported in geo-types"⟩
    ∧ decode_wkt (.polygon .empty) = .ok (.PolygonZ ⟨⟨[]⟩, []⟩)
    ∧ decode_wkt (.lineString .empty) = .ok (.LineStringZ ⟨[]⟩)
    ∧ decode_wkt .multiPointEmpty = .ok (.MultiPointZ ⟨[]⟩)
    ∧ decode_wkt .multiLineStringEmpty = .ok (.MultiLineStringZ ⟨[]⟩)
    ∧ decode_wkt .multiPolygonEmpty = .ok (.MultiPolygonZ ⟨[]⟩)
    ∧ decode_wkt .geometryCollectionEmpty = .ok (.GeometryCollection []) :=
  ⟨rfl, rfl, rfl, rfl, rfl, rfl, rfl⟩

/-- C9 counterexample: the claim says decoded polygon rings contain exactly
the written coordinates, with no closing coordinate appended.  The literal
`POLYGON Z((1 2 3, 3 4 5))` decodes with a third, closing coordinate in its
exterior (the crate's own wkt test notes "an extra coord is added to close
the linestring"). -/
theorem C9_counterexample_ring_closed :
    decode_wkt (.polygon (.rings (.coords [(1, 2, 3), (3, 4, 5)]) []))
      = .ok (.PolygonZ ⟨⟨[⟨1, 2, 3⟩, ⟨3, 4, 5⟩, ⟨1, 2, 3⟩]⟩, []⟩)
    ∧ ([⟨1, 2, 3⟩, ⟨3, 4, 5⟩, ⟨1, 2, 3⟩] : List CoordZ) ≠ [⟨1, 2, 3⟩, ⟨3, 4, 5⟩] :=
  ⟨rfl, by decide⟩

/-- C9 (amended): a decoded polygon literal takes written ring 0 as the
exterior and the remaining written rings as the interiors in written order,
but each ring is closed by the Polygon constructor (the first coordinate is
appended when the ring is not already closed); in particular a polygon whose
written rings are all closed decodes to exactly the written rings. -/
theorem C9_decode_polygon_rings :
    (∀ (f : WktLsBody) (rs : List WktLsBody),
      decode_wkt (.polygon (.rings f rs))
        = .ok (.PolygonZ ⟨(decode_line_string_body f).close,
            (rs.map decode_line_string_body).map LineStringZ.close⟩))
    ∧ (∀ (f : WktLsBody) (rs : List WktLsBody),
        (decode_line_string_body f).is_closed = true →
        (∀ b ∈ rs, (decode_line_string_body b).is_closed = true) →
        decode_wkt (.polygon (.rings f rs))
          = .ok (.PolygonZ ⟨decode_line_string_body f, rs.map decode_line_string_body⟩)) := by
  constructor
  · intro f rs; rfl
  · intro f rs hf hrs
    have e1 : (decode_line_string_body f).close = decode_line_string_body f :=
      LineStringZ.close_of_is_closed _ hf
    have e2 : (rs.map decode_line_string_body).map LineStringZ.close
        = rs.map decode_line_string_body := by
      rw [List.map_map]
      exact List.map_congr_left (fun b hb =>
        LineStringZ.close_of_is_closed _ (hrs b hb))
    calc decode_wkt (.polygon (.rings f rs))
        = .ok (.PolygonZ ⟨(decode_line_string_body f).close,
            (rs.map decode_line_string_body).map LineStringZ.close⟩) := rfl
      _ = .ok (.PolygonZ ⟨decode_line_string_body f, rs.map decode_line_string_body⟩) := by
          rw [e1, e2]

/-- C9 witness: a closed written ring decodes to exactly itself. -/
theorem C9_witness_closed_ring :
    decode_wkt (.polygon (.rings (.coords [(0, 0, 0), (1, 1, 1), (0, 0, 0)]) []))
      = .ok (.PolygonZ ⟨⟨[⟨0, 0, 0⟩, ⟨1, 1, 1⟩, ⟨0, 0, 0⟩]⟩, []⟩) :=
  C9_decode_polygon_rings.2 (.coords [(0, 0, 0), (1, 1, 1), (0, 0, 0)]) []
    (by decide) (by intro b hb; exact absurd hb (List.not_mem_nil b))

/-- C10: the position import reads indices 0, 1 and 2 unconditionally; for a
position with fewer than 3 elements it does not return an error value — the
out-of-bounds (panic) branch is reached, both in the coordinate helper and in
the Point import. -/
theorem C10_short_position_panics (p : PointType) (h : p.length < 3) :
    create_geo_coordinate p = .error .panic
    ∧ create_geo_point p = .error .panic
    ∧ PointZ.try_from_value (.point p) = .error .panic := by
  match p with
  | [] => exact ⟨rfl, rfl, rfl⟩
  | [a] => exact ⟨rfl, rfl, rfl⟩
  | [a, b] => exact ⟨rfl, rfl, rfl⟩
  | a :: b :: c :: t =>
      exfalso
      simp only [List.length_cons] at h
      omega

/-- C10 witness: the two-element position `[100, 0]` panics the import. -/
theorem C10_witness_two_element_position :
    ([(100 : Scalar), 0].length < 3)
    ∧ (create_geo_coordinate [(100 : Scalar), 0] = .error .panic
      ∧ create_geo_point [(100 : Scalar), 0] = .error .panic
      ∧ PointZ.try_from_value (.point [(100 : Scalar), 0]) = .error .panic) :=
  ⟨by decide, C10_short_position_panics [100, 0] (by decide)⟩

end GeoTypes3D
